import Mathlib

/-!
Verification of the watch-loop / command core of the Atlas server watch bot
(`src/command.py`).  Python strings are modelled over their character
sequences, Python `int` by `Int`, Python dicts by association lists built by
prepending (so `List.lookup` sees the most recent assignment first, matching
dict-overwrite semantics), and each `send_message` call site is tagged with
its source line number so that emitted messages can be told apart.
-/

namespace AtlasWatch

/-! ## Python string primitives (over the character sequence) -/

/-- Python `s.startswith(pre)`: prefix test on the character sequence. -/
def pyStartsWith (s pre : String) : Bool :=
  pre.toList.isPrefixOf s.toList

/-- Python `s[n:]`: drop the first `n` characters. -/
def pySlice (s : String) (n : Nat) : String :=
  String.mk (s.toList.drop n)

/-- Python `len(s)`: number of characters. -/
def pyLen (s : String) : Nat :=
  s.toList.length

/-- Python `s.upper()` restricted to the ASCII range the data uses. -/
def pyUpper (s : String) : String :=
  String.mk (s.toList.map Char.toUpper)

/-- Contiguous-sublist test on character lists. -/
def listInfixOf (needle : List Char) : List Char → Bool
  | [] => needle.isEmpty
  | c :: cs => needle.isPrefixOf (c :: cs) || listInfixOf needle cs

/-- Python `hay.find(needle) != -1`: substring occurrence test.  The empty
needle is found at position 0, hence always succeeds. -/
def pyFound (hay needle : String) : Bool :=
  listInfixOf needle.toList hay.toList

/-- Leading and trailing whitespace removal, as Python `int()` applies to its
argument before parsing. -/
def stripEnds (cs : List Char) : List Char :=
  ((cs.dropWhile Char.isWhitespace).reverse.dropWhile Char.isWhitespace).reverse

/-- Parse a nonempty run of ASCII digits as a natural number. -/
def digitsToNat (cs : List Char) : Option Nat :=
  if cs = [] then none
  else
    cs.foldl
      (fun acc c =>
        match acc with
        | none => none
        | some a => if c.isDigit then some (a * 10 + (c.toNat - 48)) else none)
      (some 0)

/-- Python `int(s)`: strip whitespace, optional sign, decimal digits.
`none` models the `ValueError` that `int` raises on malformed input. -/
def pyInt? (s : String) : Option Int :=
  match stripEnds s.toList with
  | '-' :: rest => (digitsToNat rest).map (fun n => -(n : Int))
  | '+' :: rest => (digitsToNat rest).map (fun n => (n : Int))
  | cs => (digitsToNat cs).map (fun n => (n : Int))

/-- Python `s.isdecimal()` on ASCII input: nonempty and all digits. -/
def pyIsDecimal (s : String) : Bool :=
  !s.toList.isEmpty && s.toList.all Char.isDigit

/-! ## Data model -/

/-- A Python value that is either an int or a string; `ASWDConfig.watch_interval`
can dynamically hold either (see `SetWatchWorldCommand.execute_cmd`). -/
inductive PyVal where
  | int (n : Int)
  | str (s : String)
deriving DecidableEq

/-- One entry of the `servers_info` dict built each tick
(src/command.py lines 327-332).  Player records of the feed are modelled by
their `"name"` field, the only field the code reads. -/
structure ServerInfo where
  server_name : String
  player_count : Int
  player_sbn_count : Int
  blacklist_players : List String
deriving DecidableEq

/-- A Python dict from server name to per-server info, as an association list
with the most recent assignment first. -/
abbrev ServersInfo := List (String × ServerInfo)

/-- The mutable configuration object (`ASWDConfig`) as the commands and the
watch loop read and write it. -/
structure ASWDConfig where
  is_watch_started : Bool
  watch_world : String
  watch_interval : PyVal
  player_sbn_count : Int
  blacklist : List String
  last_servers_info : ServersInfo
  blacklist_notice_server_names : List String
deriving DecidableEq

/-- One record of the fetched JSON's `grids` array: a server name and its
player list (players modelled by name). -/
structure Grid where
  grid : String
  players : List String
deriving DecidableEq

/-! ## Snapshot building (src/command.py lines 305-332) -/

/-- Embeds lines 319-325.  The source initializes `blacklist_players = []`
and then iterates `for bl_player in blacklist_players:` — over the
just-created empty local list, not over `self.config.blacklist` — so the loop
body can never execute (the list is empty when the iteration starts and
nothing is appended before the first element test).  The result is therefore
always the initial empty list, whatever the configured blacklist and the
player roster are. -/
def codeBlacklistPlayers (blacklist : List String) (players : List String) : List String :=
  let blacklist_players : List String := []
  blacklist_players

/-- The matching described by the specification for lines 319-325: for each
configured blacklist entry, a case-insensitive substring test against each
player's name; every player matching any entry is collected (duplicates
across entries not removed).  Kept separately from `codeBlacklistPlayers` to
exhibit the divergence between the two. -/
def specBlacklistPlayers (blacklist : List String) (players : List String) : List String :=
  blacklist.foldl
    (fun acc bl_player =>
      acc ++ players.filter (fun player => pyFound (pyUpper player) (pyUpper bl_player)))
    []

/-- Builds one `servers_info` entry from one grid record (lines 307-332).
`player_count` is `len(grid["players"])`; the population delta
`player_sbn_count` starts at 0 and is set to the difference against the
previous snapshot only when `last_servers_info` is nonempty and contains the
server (the stored `player_count` is never `None` in this model, so the inner
`is not None` guard of line 316 always passes). -/
def buildServerInfo (last : ServersInfo) (blacklist : List String) (g : Grid) : ServerInfo :=
  let player_count : Int := (g.players.length : Int)
  let last_server_info : Option ServerInfo :=
    if last.length ≠ 0 then List.lookup g.grid last else none
  let player_sbn_count : Int :=
    match last_server_info with
    | some lsi => player_count - lsi.player_count
    | none => 0
  { server_name := g.grid
    player_count := player_count
    player_sbn_count := player_sbn_count
    blacklist_players := codeBlacklistPlayers blacklist g.players }

/-- Builds the whole `servers_info` dict by successive assignments
`servers_info[server_name] = ...`; prepending makes `List.lookup` return the
most recent assignment, matching dict overwrite. -/
def buildServersInfo (last : ServersInfo) (blacklist : List String) (grids : List Grid) : ServersInfo :=
  grids.foldl (fun acc g => (g.grid, buildServerInfo last blacklist g) :: acc) []

/-! ## Notification policy (src/command.py lines 334-373) -/

/-- One `send_message` call, tagged with the line number of its call site in
`src/command.py` so that the different emissions can be distinguished. -/
structure SentMsg where
  channel : String
  site : Nat
  text : String
deriving DecidableEq

/-- Processing of one destination channel inside the per-tick notification
loop (lines 339-373): look the uppercased channel name up in `servers_info`;
if absent, emit the data-fetch-error notice (line 342); otherwise emit the
routine report (line 355), the surge alert when the configured threshold is
at most the population delta (lines 358-360), the blacklist-entry alert on
entering "blacklist present" (lines 363-367, appending the server to
`blacklist_notice_server_names`), and the blacklist-clear notice on leaving
it (lines 370-373, removing the first occurrence, Python `list.remove`).
The dict values are never `None`, so the `is None` guard of line 345 is
dead and omitted.  Returns the updated config and the messages sent to this
channel, in emission order. -/
def processChannel (cfg : ASWDConfig) (timestr : String) (servers_info : ServersInfo)
    (chName : String) : ASWDConfig × List SentMsg :=
  match List.lookup (pyUpper chName) servers_info with
  | none =>
      (cfg, [⟨chName, 342, timestr ++ "　" ++ pyUpper chName ++ "　データ取得エラー."⟩])
  | some si =>
      let routineMsg : SentMsg :=
        ⟨chName, 355,
          timestr ++ "　" ++ si.server_name ++ "　人数:" ++ toString si.player_count
            ++ "　BL対象者:" ++ toString si.blacklist_players⟩
      let surgeMsgs : List SentMsg :=
        if cfg.player_sbn_count ≤ si.player_sbn_count then
          [⟨chName, 360,
            "@everyone サーバ人数急増. 閾値:" ++ toString cfg.player_sbn_count
              ++ " 増加人数:" ++ toString si.player_sbn_count⟩]
        else []
      let alertStep : ASWDConfig × List SentMsg :=
        if 0 < si.blacklist_players.length then
          if si.server_name ∈ cfg.blacklist_notice_server_names then (cfg, [])
          else
            ({ cfg with blacklist_notice_server_names :=
                cfg.blacklist_notice_server_names ++ [si.server_name] },
             [⟨chName, 366,
               "@everyone ブラックリスト対象侵入. 対象:" ++ toString si.blacklist_players⟩])
        else (cfg, [])
      let cfg2 := alertStep.1
      let clearStep : ASWDConfig × List SentMsg :=
        if si.blacklist_players.length = 0
            ∧ si.server_name ∈ cfg2.blacklist_notice_server_names then
          ({ cfg2 with blacklist_notice_server_names :=
              cfg2.blacklist_notice_server_names.erase si.server_name },
           [⟨chName, 372, "ブラックリスト対象はいなくなりました."⟩])
        else (cfg2, [])
      (clearStep.1, routineMsg :: surgeMsgs ++ alertStep.2 ++ clearStep.2)

/-- The notification loop over all destination channels (lines 338-373); the
`len(tgt_channels) > 0` guard of line 338 is equivalent to iterating the
possibly-empty list.  Threads the config through the channels in order. -/
def notifyAll (cfg : ASWDConfig) (timestr : String) (servers_info : ServersInfo)
    (channels : List String) : ASWDConfig × List SentMsg :=
  channels.foldl
    (fun acc ch =>
      let r := processChannel acc.1 timestr servers_info ch
      (r.1, acc.2 ++ r.2))
    (cfg, [])

/-! ## The watch loop (src/command.py lines 276-385) -/

/-- The externally determined events of one loop iteration: a transport-level
exception during the fetch (lines 293-300), an empty response body
(lines 287-292), a successful fetch carrying the parsed grid records together
with the current timestamp and the enumerated destination channels, or any
other exception raised inside the tick body and caught by the outer handler
(lines 377-382). -/
inductive TickInput where
  | fetchNetworkError
  | fetchEmpty
  | fetchOk (timestr : String) (grids : List Grid) (channels : List String)
  | unexpectedError

/-- The observable outcome of one loop iteration: the config after the
iteration, the messages sent, whether a traceback was appended to the error
log file, and the value passed to `asyncio.sleep`. -/
structure TickResult where
  config : ASWDConfig
  messages : List SentMsg
  logged : Bool
  slept : PyVal

/-- One iteration of the `while self.config.is_watch_started` loop
(lines 281-384).  `origin` is the channel of the message that started the
watch (`message.channel`), to which the error notices are sent.  Every path
ends with `asyncio.sleep(self.config.watch_interval)` (lines 291, 299, 384);
the two error-`continue` paths and the outer exception handler leave the
config untouched, while a successful iteration updates
`blacklist_notice_server_names` through the notification policy and then
stores the fresh snapshot in `last_servers_info` (line 376). -/
def tick (origin : String) (cfg : ASWDConfig) : TickInput → TickResult
  | TickInput.fetchNetworkError =>
      { config := cfg
        messages := [⟨origin, 298, "【エラー】WebService接続失敗. サーバダウンかも. 再度実行."⟩]
        logged := true
        slept := cfg.watch_interval }
  | TickInput.fetchEmpty =>
      { config := cfg
        messages := [⟨origin, 290, "【エラー】jsonが空. 再度実行."⟩]
        logged := false
        slept := cfg.watch_interval }
  | TickInput.unexpectedError =>
      { config := cfg
        messages := [⟨origin, 382, "【エラー】処理続行. 複数回発生したら/stopして."⟩]
        logged := true
        slept := cfg.watch_interval }
  | TickInput.fetchOk timestr grids channels =>
      let servers_info := buildServersInfo cfg.last_servers_info cfg.blacklist grids
      let r := notifyAll cfg timestr servers_info channels
      { config := { r.1 with last_servers_info := servers_info }
        messages := r.2
        logged := false
        slept := r.1.watch_interval }

/-- The watch loop itself, driven by a finite schedule of tick inputs: the
`is_watch_started` flag is tested at the top of each iteration, exactly as
the `while` condition of line 281 is. -/
def watchLoop (origin : String) : ASWDConfig → List TickInput → ASWDConfig × List SentMsg
  | cfg, [] => (cfg, [])
  | cfg, i :: rest =>
      if cfg.is_watch_started then
        let r := tick origin cfg i
        let w := watchLoop origin r.config rest
        (w.1, r.messages ++ w.2)
      else (cfg, [])

/-! ## Start and stop (src/command.py lines 260-403) -/

/-- `StartCommand.valid_custom` (lines 272-274): when the watch is already
started it returns the watch-continuing notice, otherwise Python's implicit
`None`. -/
def startValidCustom (cfg : ASWDConfig) : Option String :=
  if cfg.is_watch_started then some "監視継続します." else none

/-- `StartCommand.execute` (lines 276-385).  The class overrides the base
`Command.execute` — not `execute_cmd` — so the base validation chain
(`is_cmd_help`, `is_valid`, `valid_custom`) never runs for `/start`: the
method unconditionally sends "監視開始." to the originating channel, sets
`is_watch_started` to `True` and enters the tick loop, whatever the current
state of the flag was. -/
def startCommandExecute (origin : String) (cfg : ASWDConfig) (inputs : List TickInput) :
    ASWDConfig × List SentMsg :=
  let cfg1 := { cfg with is_watch_started := true }
  let w := watchLoop origin cfg1 inputs
  (w.1, ⟨origin, 278, "監視開始."⟩ :: w.2)

/-- `StopCommand.execute_cmd` (lines 400-403): clears the flag and reports
"監視終了." from the stop handler itself. -/
def stopExecuteCmd (cfg : ASWDConfig) : ASWDConfig × List String :=
  ({ cfg with is_watch_started := false }, ["監視終了."])

/-! ## Base-class dispatch and the settings commands
(src/command.py lines 104-131, 545-626) -/

/-- Outcome of `Command.execute` for an args-taking command: validation
failure with the message echoed back (lines 118-129), a completed
`execute_cmd` with the updated config and the messages it sent, or an
exception escaping `execute_cmd` uncaught. -/
inductive ExecOutcome where
  | rejected (echoed : String)
  | ran (cfg : ASWDConfig) (msgs : List String)
  | raised
deriving DecidableEq

/-- `Command.execute` (lines 104-131) for an args-taking command.  The
`is_cmd_help` test of line 114 compares the string `self.cmd + " /?"` with
the `Message` object itself rather than its content, so it is always false
and contributes no branch; likewise the malformed guard of line 111 can
never trigger for a real message.  `is_valid` (line 87) requires the content
to start with the command word plus a space and to be strictly longer; the
argument string is `content[len(cmd) + 1:]`; a non-`None` `valid_custom`
result is echoed together with the usage text and `execute_cmd` is not run. -/
def commandExecute (cmdStr usage : String) (validCustom : String → Option String)
    (executeCmd : ASWDConfig → String → Option (ASWDConfig × List String))
    (cfg : ASWDConfig) (content : String) : ExecOutcome :=
  if pyStartsWith content (cmdStr ++ " ") = true ∧ pyLen cmdStr + 1 < pyLen content then
    let args := pySlice content (pyLen cmdStr + 1)
    match validCustom args with
    | some vmsg => ExecOutcome.rejected (vmsg ++ "\n" ++ usage)
    | none =>
        match executeCmd cfg args with
        | none => ExecOutcome.raised
        | some r => ExecOutcome.ran r.1 r.2
  else ExecOutcome.rejected ("コマンドが正しくありません.\n" ++ usage)

/-- `SetWatchWorldCommand.usage` (lines 553-555). -/
def setWatchWorldUsage : String :=
  "/set world [NA or EU] : 監視ワールドを設定します."

/-- `SetWatchWorldCommand.valid_custom` (lines 557-561). -/
def setWatchWorldValidCustom (args : String) : Option String :=
  if args = "" then some "NA か EU を設定してください."
  else if args ≠ "NA" ∧ args ≠ "EU" then some "NA か EU を設定してください."
  else none

/-- `SetWatchWorldCommand.execute_cmd` (lines 563-567): the assignment of
line 564 targets `self.config.watch_interval`, not `watch_world`, storing the
argument string there, and the success report of line 565 is sent. -/
def setWatchWorldExecuteCmd (cfg : ASWDConfig) (args : String) : ASWDConfig × List String :=
  ({ cfg with watch_interval := PyVal.str args },
   ["監視ワールドを" ++ args ++ "秒に設定しました."])

/-- `SetWatchIntervalCommand.usage` (lines 578-580). -/
def setWatchIntervalUsage : String :=
  "/set interval : 監視間隔(秒)を設定します."

/-- `SetWatchIntervalCommand.valid_custom` (lines 582-584): empty or
non-decimal arguments are rejected. -/
def setWatchIntervalValidCustom (args : String) : Option String :=
  if args = "" ∨ pyIsDecimal args = false then some "監視間隔に数値を設定してください."
  else none

/-- Body of `SetWatchIntervalCommand.execute_cmd` after `int_val = int(args)`
(lines 589-597): a value below 30 first produces the coercion notice and is
replaced by 30, then the interval is stored and the confirmation sent. -/
def setWatchIntervalBody (cfg : ASWDConfig) (int_val0 : Int) : ASWDConfig × List String :=
  let pre : List String :=
    if int_val0 < 30 then ["指定した数値が30秒未満のため、30秒を設定します."] else []
  let int_val : Int := if int_val0 < 30 then 30 else int_val0
  ({ cfg with watch_interval := PyVal.int int_val },
   pre ++ ["監視間隔を" ++ toString int_val ++ "秒に設定しました."])

/-- `SetWatchIntervalCommand.execute_cmd` (lines 587-597): `int(args)`
followed by the body; `none` is the uncaught `ValueError`. -/
def setWatchIntervalExecuteCmd (cfg : ASWDConfig) (args : String) :
    Option (ASWDConfig × List String) :=
  (pyInt? args).map (setWatchIntervalBody cfg)

/-- `SetPlayerSbnCountCommand.usage` (lines 608-610). -/
def setPlayerSbnUsage : String :=
  "/set player_count : 通知対象プレイヤー増加数を設定します."

/-- `SetPlayerSbnCountCommand.valid_custom` (lines 612-614): only emptiness
is checked — unlike the interval command, no decimal check is performed. -/
def setPlayerSbnValidCustom (args : String) : Option String :=
  if args = "" then some "プレイヤー増加数を数値で設定してください." else none

/-- Body of `SetPlayerSbnCountCommand.execute_cmd` after `int_val = int(args)`
(lines 618-626): a value below 3 first produces the coercion notice and is
replaced by 3, then the threshold is stored and the confirmation sent. -/
def setPlayerSbnBody (cfg : ASWDConfig) (int_val0 : Int) : ASWDConfig × List String :=
  let pre : List String :=
    if int_val0 < 3 then ["指定した数値が3人未満のため、3人を設定します."] else []
  let int_val : Int := if int_val0 < 3 then 3 else int_val0
  ({ cfg with player_sbn_count := int_val },
   pre ++ ["通知対象プレイヤー増加数を" ++ toString int_val ++ "人に設定しました."])

/-- `SetPlayerSbnCountCommand.execute_cmd` (lines 616-626): `int(args)`
followed by the body; `none` is the uncaught `ValueError`. -/
def setPlayerSbnCountExecuteCmd (cfg : ASWDConfig) (args : String) :
    Option (ASWDConfig × List String) :=
  (pyInt? args).map (setPlayerSbnBody cfg)

/-! ## Example states used by the concrete witnesses -/

/-- A stopped default state. -/
def cfgIdle : ASWDConfig :=
  { is_watch_started := false
    watch_world := "NA"
    watch_interval := PyVal.int 60
    player_sbn_count := 3
    blacklist := []
    last_servers_info := []
    blacklist_notice_server_names := [] }

/-- A state in which the watch is already running. -/
def cfgRunning : ASWDConfig :=
  { cfgIdle with is_watch_started := true }

/-- Previous-tick record for server `A1` with population 10. -/
def prevInfoA1 : ServerInfo :=
  { server_name := "A1", player_count := 10, player_sbn_count := 0, blacklist_players := [] }

/-- Current grid record for server `A1` with 15 players. -/
def gridA1 : Grid :=
  { grid := "A1", players := List.replicate 15 "p" }

/-- The snapshot entry built for `gridA1` against a previous population of
10: its delta is 5. -/
def siA1 : ServerInfo :=
  buildServerInfo [("A1", prevInfoA1)] [] gridA1

/-- A running state with surge threshold 5 and previous snapshot containing
`A1` at population 10. -/
def cfgThreshold5 : ASWDConfig :=
  { cfgRunning with player_sbn_count := 5, last_servers_info := [("A1", prevInfoA1)] }

/-- A snapshot entry for `A1` with one blacklist match present. -/
def siEvil : ServerInfo :=
  { server_name := "A1", player_count := 1, player_sbn_count := 0,
    blacklist_players := ["EvilDoer42"] }

/-- A snapshot entry for `A1` with no blacklist match. -/
def siClean : ServerInfo :=
  { server_name := "A1", player_count := 0, player_sbn_count := 0, blacklist_players := [] }

/-! ## Helper lemmas -/

theorem processChannel_is_watch_started (cfg : ASWDConfig) (timestr : String)
    (sinfo : ServersInfo) (ch : String) :
    (processChannel cfg timestr sinfo ch).1.is_watch_started = cfg.is_watch_started := by
  unfold processChannel
  cases hl : List.lookup (pyUpper ch) sinfo with
  | none => rfl
  | some si =>
      by_cases hb : si.blacklist_players.length = 0 <;>
        by_cases hm : si.server_name ∈ cfg.blacklist_notice_server_names <;>
          simp [hb, hm, Nat.pos_iff_ne_zero]

theorem notifyFold_is_watch_started (timestr : String) (sinfo : ServersInfo) :
    ∀ (channels : List String) (p : ASWDConfig × List SentMsg),
      (List.foldl
        (fun acc ch =>
          let r := processChannel acc.1 timestr sinfo ch
          (r.1, acc.2 ++ r.2)) p channels).1.is_watch_started = p.1.is_watch_started := by
  intro channels
  induction channels with
  | nil => intro p; rfl
  | cons c rest ih =>
      intro p
      rw [List.foldl_cons, ih]
      simpa using processChannel_is_watch_started p.1 timestr sinfo c

theorem tick_is_watch_started (origin : String) (cfg : ASWDConfig) (i : TickInput) :
    (tick origin cfg i).config.is_watch_started = cfg.is_watch_started := by
  cases i with
  | fetchNetworkError => rfl
  | fetchEmpty => rfl
  | unexpectedError => rfl
  | fetchOk timestr grids channels =>
      simpa [tick, notifyAll] using
        notifyFold_is_watch_started timestr
          (buildServersInfo cfg.last_servers_info cfg.blacklist grids) channels (cfg, [])

theorem watchLoop_keeps_running (origin : String) :
    ∀ (inputs : List TickInput) (cfg : ASWDConfig),
      cfg.is_watch_started = true →
      (watchLoop origin cfg inputs).1.is_watch_started = true := by
  intro inputs
  induction inputs with
  | nil => intro cfg h; exact h
  | cons i rest ih =>
      intro cfg h
      simp only [watchLoop, h, if_true]
      apply ih
      rw [tick_is_watch_started]
      exact h

/-! ## Claim theorems -/

/-- C1: the claim says a `/start` issued while the watch is already running
is a no-op that reports "監視継続します." and starts no second tick-sequence.
The code violates this: `StartCommand` overrides `execute` instead of
`execute_cmd`, so the guard of `valid_custom` (which would indeed return the
watch-continuing notice, first conjunct) is dead code, and the executed path
re-emits "監視開始." and runs the tick loop again from an
already-running state (second conjunct: the start notice followed by a tick's
message, i.e. a second tick-sequence began). -/
theorem C1_start_reentry_eval :
    startValidCustom cfgRunning = some "監視継続します."
    ∧ (startCommandExecute "general" cfgRunning [TickInput.fetchEmpty]).2 =
        [⟨"general", 278, "監視開始."⟩, ⟨"general", 290, "【エラー】jsonが空. 再度実行."⟩] :=
  ⟨rfl, rfl⟩

/-- C2: the claim says the snapshot builder records every player whose name
contains a configured blacklist entry case-insensitively, so blacklist
`["eviL"]` with player `"EvilDoer42"` should record that player.  The code
violates this: lines 319-325 iterate over the freshly created empty local
list `blacklist_players` instead of `self.config.blacklist`, so the built
entry's match list is empty at the claimed input (first conjunct), while the
matching the specification describes does select the player
(second conjunct). -/
theorem C2_blacklist_match_eval :
    (buildServerInfo [] ["eviL"] { grid := "A1", players := ["EvilDoer42"] }).blacklist_players
        = []
    ∧ specBlacklistPlayers ["eviL"] ["EvilDoer42"] = ["EvilDoer42"] :=
  ⟨rfl, by decide⟩

/-- C3: for a channel whose uppercased name resolves to a server of the
snapshot, the surge alert (the `@everyone` message of line 359, site 360) is
emitted exactly once when the configured threshold is at most the server's
population delta, and not at all otherwise — `<=` comparison, so the
boundary `delta = threshold` fires. -/
theorem C3_surge_alert_iff (cfg : ASWDConfig) (timestr : String) (sinfo : ServersInfo)
    (ch : String) (si : ServerInfo) (h : List.lookup (pyUpper ch) sinfo = some si) :
    (processChannel cfg timestr sinfo ch).2.countP (fun m => m.site == 360) =
      if cfg.player_sbn_count ≤ si.player_sbn_count then 1 else 0 := by
  unfold processChannel
  rw [h]
  by_cases hs : cfg.player_sbn_count ≤ si.player_sbn_count <;>
    by_cases hb : si.blacklist_players.length = 0 <;>
      by_cases hm : si.server_name ∈ cfg.blacklist_notice_server_names <;>
        simp [hs, hb, hm, Nat.pos_iff_ne_zero, List.countP_cons, List.countP_append]

/-- C3 witness: previous population 10, current population 15, threshold 5 —
the delta is 5 and the boundary case emits the alert once. -/
theorem C3_surge_alert_witness :
    siA1.player_sbn_count = 5
    ∧ (processChannel cfgThreshold5 "10/12 00:00" [("A1", siA1)] "A1").2.countP
        (fun m => m.site == 360) = 1 := by
  constructor
  · rfl
  · have h := C3_surge_alert_iff cfgThreshold5 "10/12 00:00" [("A1", siA1)] "A1" siA1 rfl
    rw [h]
    decide

/-- C4: for a channel whose uppercased name resolves to a server of the
snapshot, the blacklist-entry alert (site 366) is emitted exactly once when
matches are present and the server is not yet in
`blacklist_notice_server_names`, and then the server is appended to that
list; the blacklist-clear notice (site 372) is emitted exactly once when no
match is present and the server is in the list, and then the server is
removed; and while matches stay present on an already-alerted server the
list is unchanged (and, by the first conjunct, no alert repeats). -/
theorem C4_blacklist_transitions (cfg : ASWDConfig) (timestr : String) (sinfo : ServersInfo)
    (ch : String) (si : ServerInfo) (h : List.lookup (pyUpper ch) sinfo = some si) :
    ((processChannel cfg timestr sinfo ch).2.countP (fun m => m.site == 366) =
      if 0 < si.blacklist_players.length
          ∧ si.server_name ∉ cfg.blacklist_notice_server_names then 1 else 0)
    ∧ ((processChannel cfg timestr sinfo ch).2.countP (fun m => m.site == 372) =
      if si.blacklist_players.length = 0
          ∧ si.server_name ∈ cfg.blacklist_notice_server_names then 1 else 0)
    ∧ (0 < si.blacklist_players.length → si.server_name ∉ cfg.blacklist_notice_server_names →
      (processChannel cfg timestr sinfo ch).1.blacklist_notice_server_names =
        cfg.blacklist_notice_server_names ++ [si.server_name])
    ∧ (si.blacklist_players.length = 0 → si.server_name ∈ cfg.blacklist_notice_server_names →
      (processChannel cfg timestr sinfo ch).1.blacklist_notice_server_names =
        cfg.blacklist_notice_server_names.erase si.server_name)
    ∧ (0 < si.blacklist_players.length → si.server_name ∈ cfg.blacklist_notice_server_names →
      (processChannel cfg timestr sinfo ch).1.blacklist_notice_server_names =
        cfg.blacklist_notice_server_names) := by
  unfold processChannel
  rw [h]
  refine ⟨?_, ?_, ?_, ?_, ?_⟩ <;>
    (try intro h1 h2) <;>
      by_cases hs : cfg.player_sbn_count ≤ si.player_sbn_count <;>
        by_cases hb : si.blacklist_players.length = 0 <;>
          by_cases hm : si.server_name ∈ cfg.blacklist_notice_server_names <;>
            simp_all [Nat.pos_iff_ne_zero, List.countP_cons, List.countP_append]

/-- C4 witness: a transition into "blacklist present" emits the entry alert
once and records the server; a later tick with zero matches emits the clear
notice once. -/
theorem C4_blacklist_witness :
    ((processChannel cfgRunning "t1" [("A1", siEvil)] "A1").2.countP
        (fun m => m.site == 366) = 1)
    ∧ ((processChannel cfgRunning "t1" [("A1", siEvil)] "A1").1.blacklist_notice_server_names
        = ["A1"])
    ∧ ((processChannel (processChannel cfgRunning "t1" [("A1", siEvil)] "A1").1 "t2"
          [("A1", siClean)] "A1").2.countP (fun m => m.site == 372) = 1) := by
  have h1 := C4_blacklist_transitions cfgRunning "t1" [("A1", siEvil)] "A1" siEvil rfl
  have h2 := C4_blacklist_transitions (processChannel cfgRunning "t1" [("A1", siEvil)] "A1").1
    "t2" [("A1", siClean)] "A1" siClean rfl
  refine ⟨?_, ?_, ?_⟩
  · rw [h1.1]; decide
  · have := h1.2.2.1 (by decide) (by decide)
    simpa [cfgRunning, cfgIdle] using this
  · rw [h2.2.1]
    have := h1.2.2.1 (by decide) (by decide)
    rw [if_pos]
    refine ⟨rfl, ?_⟩
    rw [this]
    decide

/-- C5: the population delta of a freshly built snapshot entry is 0 when the
previous snapshot is empty or lacks the server, is current minus previous
population otherwise (possibly negative), and in particular vanishes when
the previous population equals the current one — so rebuilding from an
identical snapshot yields delta 0. -/
theorem C5_population_delta (last : ServersInfo) (bl : List String) (g : Grid) :
    ((last = [] ∨ List.lookup g.grid last = none) →
      (buildServerInfo last bl g).player_sbn_count = 0)
    ∧ (∀ lsi, List.lookup g.grid last = some lsi →
      (buildServerInfo last bl g).player_sbn_count =
        (g.players.length : Int) - lsi.player_count)
    ∧ (∀ lsi, List.lookup g.grid last = some lsi →
        lsi.player_count = (g.players.length : Int) →
      (buildServerInfo last bl g).player_sbn_count = 0) := by
  refine ⟨?_, ?_, ?_⟩
  · rintro (rfl | hnone)
    · rfl
    · unfold buildServerInfo
      simp [hnone]
  · intro lsi hl
    have hne : last.length ≠ 0 := by
      intro h0
      rw [List.length_eq_zero.mp h0] at hl
      simp [List.lookup] at hl
    unfold buildServerInfo
    simp [hne, hl]
  · intro lsi hl hpc
    have hne : last.length ≠ 0 := by
      intro h0
      rw [List.length_eq_zero.mp h0] at hl
      simp [List.lookup] at hl
    unfold buildServerInfo
    simp [hne, hl, hpc]

/-- C5 witness: empty previous snapshot gives delta 0; a previous entry at
population 10 against 15 current players gives delta 15 - 10; a previous
entry at the same population 15 gives delta 0. -/
theorem C5_population_delta_witness :
    ((buildServerInfo [] [] gridA1).player_sbn_count = 0)
    ∧ (siA1.player_sbn_count = (gridA1.players.length : Int) - prevInfoA1.player_count)
    ∧ ((buildServerInfo [("A1", { prevInfoA1 with player_count := 15 })] []
        gridA1).player_sbn_count = 0) := by
  refine ⟨?_, ?_, ?_⟩
  · exact (C5_population_delta [] [] gridA1).1 (Or.inl rfl)
  · exact (C5_population_delta [("A1", prevInfoA1)] [] gridA1).2.1 prevInfoA1 rfl
  · exact (C5_population_delta [("A1", { prevInfoA1 with player_count := 15 })] [] gridA1).2.2
      { prevInfoA1 with player_count := 15 } rfl (by decide)

/-- C6: a tick whose fetched body is empty emits exactly the error notice of
line 288 to the originating channel, leaves the whole config — in particular
`last_servers_info` — unchanged, sleeps the configured interval, and
(last conjunct) when the watch is running the loop proceeds to process the
remaining schedule, the diff/notification steps having contributed no
message and no state change. -/
theorem C6_empty_response (cfg : ASWDConfig) (origin : String) (rest : List TickInput) :
    ((tick origin cfg TickInput.fetchEmpty).config = cfg)
    ∧ ((tick origin cfg TickInput.fetchEmpty).messages =
        [⟨origin, 290, "【エラー】jsonが空. 再度実行."⟩])
    ∧ ((tick origin cfg TickInput.fetchEmpty).slept = cfg.watch_interval)
    ∧ (cfg.is_watch_started = true →
        watchLoop origin cfg (TickInput.fetchEmpty :: rest) =
          ((watchLoop origin cfg rest).1,
           ⟨origin, 290, "【エラー】jsonが空. 再度実行."⟩ :: (watchLoop origin cfg rest).2)) := by
  refine ⟨rfl, rfl, rfl, ?_⟩
  intro h
  simp [watchLoop, tick, h]

/-- C6 witness: from a concrete running state, the empty-body tick changes
nothing and the loop with that single input emits just the error notice. -/
theorem C6_empty_response_witness :
    (tick "general" cfgRunning TickInput.fetchEmpty).config = cfgRunning
    ∧ watchLoop "general" cfgRunning [TickInput.fetchEmpty] =
        (cfgRunning, [⟨"general", 290, "【エラー】jsonが空. 再度実行."⟩]) := by
  have h := C6_empty_response cfgRunning "general" []
  refine ⟨h.1, ?_⟩
  have h4 := h.2.2.2 rfl
  simpa [watchLoop] using h4

/-- C7: an exception raised in the tick body outside the fetch (the outer
handler of lines 377-382) is logged to the error log, reported to the
originating channel as the generic continuation warning, and leaves the
config unchanged; no tick input whatsoever changes `is_watch_started`, so
the loop keeps running through any schedule of errors, and the flag is
cleared only by the explicit stop handler. -/
theorem C7_stay_alive (cfg : ASWDConfig) (origin : String) :
    ((tick origin cfg TickInput.unexpectedError).logged = true)
    ∧ ((tick origin cfg TickInput.unexpectedError).messages =
        [⟨origin, 382, "【エラー】処理続行. 複数回発生したら/stopして."⟩])
    ∧ ((tick origin cfg TickInput.unexpectedError).config = cfg)
    ∧ ((tick origin cfg TickInput.unexpectedError).slept = cfg.watch_interval)
    ∧ (∀ i, (tick origin cfg i).config.is_watch_started = cfg.is_watch_started)
    ∧ (∀ inputs, cfg.is_watch_started = true →
        (watchLoop origin cfg inputs).1.is_watch_started = true)
    ∧ ((stopExecuteCmd cfg).1.is_watch_started = false) :=
  ⟨rfl, rfl, rfl, rfl, fun i => tick_is_watch_started origin cfg i,
   fun inputs h => watchLoop_keeps_running origin inputs cfg h, rfl⟩

/-- C7 witness: from a concrete running state an unexpected error is logged
and the loop survives an error-only schedule. -/
theorem C7_stay_alive_witness :
    (tick "general" cfgRunning TickInput.unexpectedError).logged = true
    ∧ (watchLoop "general" cfgRunning
        [TickInput.unexpectedError, TickInput.fetchNetworkError]).1.is_watch_started = true := by
  have h := C7_stay_alive cfgRunning "general"
  exact ⟨h.1, h.2.2.2.2.2.1 [TickInput.unexpectedError, TickInput.fetchNetworkError] rfl⟩

/-- C8: for any integer argument, the interval setter stores 30 with the
coercion notice when the value is below 30 and stores the value unchanged at
or above 30; the player-count setter does the same with minimum 3. -/
theorem C8_minimum_coercion (cfg : ASWDConfig) (args : String) (n : Int)
    (h : pyInt? args = some n) :
    (setWatchIntervalExecuteCmd cfg args = some (setWatchIntervalBody cfg n))
    ∧ ((setWatchIntervalBody cfg n).1.watch_interval =
        PyVal.int (if n < 30 then 30 else n))
    ∧ (n < 30 →
        "指定した数値が30秒未満のため、30秒を設定します." ∈ (setWatchIntervalBody cfg n).2)
    ∧ (30 ≤ n → (setWatchIntervalBody cfg n).1.watch_interval = PyVal.int n)
    ∧ (setPlayerSbnCountExecuteCmd cfg args = some (setPlayerSbnBody cfg n))
    ∧ ((setPlayerSbnBody cfg n).1.player_sbn_count = (if n < 3 then 3 else n))
    ∧ (n < 3 →
        "指定した数値が3人未満のため、3人を設定します." ∈ (setPlayerSbnBody cfg n).2)
    ∧ (3 ≤ n → (setPlayerSbnBody cfg n).1.player_sbn_count = n) := by
  refine ⟨by simp [setWatchIntervalExecuteCmd, h], ?_, ?_, ?_,
    by simp [setPlayerSbnCountExecuteCmd, h], ?_, ?_, ?_⟩ <;>
    (try intro hn) <;>
      simp_all [setWatchIntervalBody, setPlayerSbnBody]

/-- C8 witness: argument "5" is below the interval minimum, so the interval
is coerced to 30 with the notice, while 5 is at or above the player-count
minimum and is stored unchanged. -/
theorem C8_minimum_coercion_witness :
    "指定した数値が30秒未満のため、30秒を設定します." ∈ (setWatchIntervalBody cfgIdle 5).2
    ∧ (setPlayerSbnBody cfgIdle 5).1.player_sbn_count = 5 := by
  have h := C8_minimum_coercion cfgIdle "5" 5 (by decide)
  exact ⟨h.2.2.1 (by norm_num), h.2.2.2.2.2.2.2 (by norm_num)⟩

/-- C9: the claim says malformed arguments are caught by validation and the
usage text echoed without executing the command, in particular for a
non-numeric argument to `/set player_count`.  The code violates this:
`SetPlayerSbnCountCommand.valid_custom` only rejects emptiness (first
conjunct), so dispatch reaches `execute_cmd`, where `int("abc")` raises an
uncaught `ValueError` (second conjunct) instead of echoing usage — while the
adjacent interval command does reject the same argument through its
`isdecimal` check (third conjunct). -/
theorem C9_nonnumeric_arg_eval :
    setPlayerSbnValidCustom "abc" = none
    ∧ commandExecute "/set player_count" setPlayerSbnUsage setPlayerSbnValidCustom
        setPlayerSbnCountExecuteCmd cfgIdle "/set player_count abc" = ExecOutcome.raised
    ∧ setWatchIntervalValidCustom "abc" = some "監視間隔に数値を設定してください." := by
  refine ⟨rfl, ?_, by decide⟩
  decide

/-- C10: executing `/set world` with a valid argument passes validation,
leaves `watch_world` unchanged, stores the argument string into
`watch_interval` instead (line 564), and reports success for the world
setting. -/
theorem C10_set_world_frame (cfg : ASWDConfig) (args : String)
    (h : args = "NA" ∨ args = "EU") :
    (setWatchWorldValidCustom args = none)
    ∧ ((setWatchWorldExecuteCmd cfg args).1.watch_world = cfg.watch_world)
    ∧ ((setWatchWorldExecuteCmd cfg args).1.watch_interval = PyVal.str args)
    ∧ ((setWatchWorldExecuteCmd cfg args).2 =
        ["監視ワールドを" ++ args ++ "秒に設定しました."]) := by
  refine ⟨?_, rfl, rfl, rfl⟩
  rcases h with rfl | rfl <;> decide

/-- C10 witness: with argument "NA" the world field is untouched and the
interval field now holds the string "NA". -/
theorem C10_set_world_frame_witness :
    (setWatchWorldExecuteCmd cfgIdle "NA").1.watch_world = cfgIdle.watch_world
    ∧ (setWatchWorldExecuteCmd cfgIdle "NA").1.watch_interval = PyVal.str "NA" :=
  ⟨(C10_set_world_frame cfgIdle "NA" (Or.inl rfl)).2.1,
   (C10_set_world_frame cfgIdle "NA" (Or.inl rfl)).2.2.1⟩

end AtlasWatch
